/-
Verification of the evaluate-ai evaluation harness.

This file shallowly embeds the scoring and run-tracking logic of the
repository (src/evaluate_ai) in Lean 4 and settles the specification
claims against it.  Machine integers are modelled with Nat/Int, Python
floats with ℚ (exact rational arithmetic), Python exceptions with
`Except`, and the external LLM/judge calls with explicit outcome values
passed in as data.
-/
import Mathlib

namespace EvaluateAI

/-! ## Run identity and skip set
A shallow embedding of
`src/evaluate_ai/tinydb_helpers/evaluation_data.py` (get_executed_evaluations)
and of the skip-key loops of
`src/evaluate_ai/evaluations/contains_pattern.py` (num_instances / execute).
-/

/-- A stored output record, restricted to the fields read by
`get_executed_evaluations`: `doc["output_type"]`, `doc["class_name"]`,
`doc["name_model"]`, `doc["provider"]`, `doc["evaluation_instance"]["name"]`.
(Records whose `output_type` is not "instance" are filtered out before any
other field is read, so giving every record the remaining fields is
behaviour-preserving.) -/
structure StoredRecord where
  output_type : String
  class_name : String
  name_model : String
  provider : String
  instance_name : String
  deriving DecidableEq

/-- The composite execution key
`(class_name, name_model, provider, evaluation_instance.name)`. -/
abbrev EvalKey := String × String × String × String

/-- The key tuple added to the set for each instance-level record, as in
`get_executed_evaluations`. -/
def recordKey (d : StoredRecord) : EvalKey :=
  (d.class_name, d.name_model, d.provider, d.instance_name)

/-- `get_executed_evaluations`: scan all stored documents, keep those with
`output_type == "instance"`, and collect their keys into a set. -/
def get_executed_evaluations (docs : List StoredRecord) : Finset EvalKey :=
  ((docs.filter (fun d => d.output_type == "instance")).map recordKey).toFinset

/-- The full candidate key list built by the nested
`for provider, model in self.models: for e_instance in ...` loops, with the
output class name `cls` fixed (e.g. `"EvaluationInstanceOutputContainsPattern"`).
Each candidate key is `(cls, model, provider.value, e_instance.name)`. -/
def candidateKeys (cls : String) (models : List (String × String))
    (instanceNames : List String) : List EvalKey :=
  (models.map (fun pm => instanceNames.map (fun n => (cls, pm.2, pm.1, n)))).flatten

/-- `num_instances`: count the candidate keys not in `keys_to_skip`. -/
def num_instances (cls : String) (models : List (String × String))
    (instanceNames : List String) (keysToSkip : Finset EvalKey) : Nat :=
  (candidateKeys cls models instanceNames).countP (fun k => !decide (k ∈ keysToSkip))

/-- The keys actually executed by `execute`: the candidates whose key is not
in `keys_to_skip`, in loop order. -/
def executedKeys (cls : String) (models : List (String × String))
    (instanceNames : List String) (keysToSkip : Finset EvalKey) : List EvalKey :=
  (candidateKeys cls models instanceNames).filter (fun k => !decide (k ∈ keysToSkip))

/-! ## Rubric (meets-criteria) scorer
A shallow embedding of `EvaluationMeetsCriteria._evaluate`
(src/evaluate_ai/evaluations/meets_criteria.py, lines 174-225).

Each criterion carries its configured integer `importance` and the outcome of
its two judge calls.  The reasoning `chat_completion` and the JSON-conversion
`chat_completion` sit *outside* the `try` block, so a transport error from
either one propagates; only the extraction line
`evaluation_result.choices[0].json_message["answer"]` is inside the
`try/except` and is downgraded to `continue`. -/

/-- Outcome of the per-criterion judge interaction. -/
inductive JudgeOutcome where
  /-- The reasoning `chat_completion` call raises a transport error. -/
  | reasoningTransportError
  /-- The JSON-conversion `chat_completion` call raises a transport error. -/
  | convertTransportError
  /-- The `json_message["answer"]` extraction raises
  (malformed JSON / missing key): caught by the `except` clause. -/
  | parseFailure
  /-- Extraction succeeds with the (truthiness of the) boolean answer. -/
  | answer (b : Bool)
  deriving DecidableEq

/-- Does this outcome model a transport error (raised outside the `try`)? -/
def JudgeOutcome.isTransport : JudgeOutcome → Bool
  | .reasoningTransportError => true
  | .convertTransportError => true
  | _ => false

/-- Did extraction succeed with answer `true`? -/
def JudgeOutcome.isTrueAnswer : JudgeOutcome → Bool
  | .answer true => true
  | _ => false

/-- One rubric criterion: its `importance` and its judge outcome. -/
abbrev Criterion := Int × JudgeOutcome

/-- `total_importance = sum([c.importance for c in e_instance.semantic_criteria])`. -/
def totalImportance (crits : List Criterion) : Int :=
  (crits.map Prod.fst).sum

/-- `importance = (importance / total_importance) * 100` (exact rationals). -/
def normalizedWeight (total : Int) (imp : Int) : ℚ :=
  ((imp : ℚ) / (total : ℚ)) * 100

/-- The per-criterion loop of `_evaluate`.  The division by
`total_importance` happens at the top of each iteration (before the judge
calls), so a zero total raises `ZeroDivisionError` on the first iteration;
a transport error from either judge call raises; a caught extraction
failure `continue`s; a `true` answer adds the normalized weight. -/
def mcLoop (total : Int) (score : ℚ) : List Criterion → Except Unit ℚ
  | [] => .ok score
  | c :: rest =>
    if total = 0 then .error ()
    else
      match c.2 with
      | .reasoningTransportError => .error ()
      | .convertTransportError => .error ()
      | .parseFailure => mcLoop total score rest
      | .answer b =>
        mcLoop total (if b then score + normalizedWeight total c.1 else score) rest

/-- `EvaluationMeetsCriteria._evaluate`: normalize importances against the
instance's own criteria list and run the per-criterion loop starting from
score `0`.  `.error ()` models an uncaught Python exception escaping the
method. -/
def meetsCriteriaEvaluate (crits : List Criterion) : Except Unit ℚ :=
  mcLoop (totalImportance crits) 0 crits

/-- The sum of the normalized weights of the criteria judged `true`,
relative to an ambient total (specification value used to characterize the
loop). -/
def partialTrueSum (total : Int) (crits : List Criterion) : ℚ :=
  (crits.map (fun c => if c.2.isTrueAnswer then normalizedWeight total c.1 else 0)).sum

/-- Modelled from the spec: the claimed final score, "the sum of the
normalized weights of the criteria judged true". -/
def trueWeightSum (crits : List Criterion) : ℚ :=
  partialTrueSum (totalImportance crits) crits

/-- Modelled from the spec: rounding to two decimal places as Python
`round(x, 2)` would (round-half-to-even); the code performs no such
rounding.  Any value of the form `z / 100` is a fixed point. -/
def round2 (q : ℚ) : ℚ :=
  let x := q * 100
  let n : Int := ⌊x⌋
  let frac : ℚ := x - (n : ℚ)
  let r : Int :=
    if frac < 1 / 2 then n
    else if 1 / 2 < frac then n + 1
    else if n % 2 = 0 then n else n + 1
  (r : ℚ) / 100

/-! ## Instruction-following conflict registry
A shallow embedding of
`src/evaluate_ai/evaluations/instruction_following_eval/instructions_registry.py`:
the one-directional `INSTRUCTION_CONFLICTS` table and the `conflict_make`
symmetrization function.  A Python `dict[str, set[str]]` is modelled as an
association list `List (String × List String)` (insertion order of the dict is
the list order; each value list holds the set's elements, duplicate-free). -/

/-- A conflict table: instruction id → set of conflicting ids. -/
abbrev ConflictTable := List (String × List String)

/-- `conflicts[k]` (the table's entries are only ever read at existing keys). -/
def tableGet (t : ConflictTable) (k : String) : List String :=
  (t.lookup k).getD []

/-- Python `set.add`: insert if absent (list models the set; membership is
what matters). -/
def setAdd (l : List String) (x : String) : List String :=
  if l.contains x then l else l ++ [x]

/-- One iteration of the outer loop of `conflict_make` for `key`:
`for k in conflicts[key]: conflicts[k].add(key)` followed by
`conflicts[key].add(key)`.  (The live Python set iteration only mutates
`conflicts[key]` itself in the no-op case `k == key`, so the snapshot
semantics used here coincides with the source's.) -/
def conflictStep (t : ConflictTable) (key : String) : ConflictTable :=
  let snap := tableGet t key
  let t1 := t.map (fun kv => if snap.contains kv.1 then (kv.1, setAdd kv.2 key) else kv)
  t1.map (fun kv => if kv.1 == key then (kv.1, setAdd kv.2 key) else kv)

/-- `conflict_make`: iterate the outer loop over the table's keys in dict
insertion order, mutating the table in place. -/
def conflict_make (t : ConflictTable) : ConflictTable :=
  (t.map Prod.fst).foldl conflictStep t

/-- The 25 keys of `INSTRUCTION_DICT`, in insertion order. -/
def instructionIds : List String :=
  ["keywords:existence", "keywords:frequency", "keywords:forbidden_words",
   "keywords:letter_frequency", "language:response_language",
   "length_constraints:number_sentences", "length_constraints:number_paragraphs",
   "length_constraints:number_words", "length_constraints:nth_paragraph_first_word",
   "detectable_content:number_placeholders", "detectable_content:postscript",
   "detectable_format:number_bullet_lists", "detectable_format:constrained_response",
   "detectable_format:number_highlighted_sections", "detectable_format:multiple_sections",
   "detectable_format:json_format", "detectable_format:title",
   "combination:two_responses", "combination:repeat_prompt",
   "startend:end_checker", "change_case:capital_word_frequency",
   "change_case:english_capital", "change_case:english_lowercase",
   "punctuation:no_comma", "startend:quotation"]

/-- Python `set(...).difference(rem)` on id lists. -/
def idSetDiff (l rem : List String) : List String :=
  l.filter (fun x => !(rem.contains x))

/-- The one-directional `INSTRUCTION_CONFLICTS` table exactly as constructed
at module initialization (no symmetrization is ever applied to it in the
repository: `conflict_make` is defined but never called). -/
def rawInstructionConflicts : ConflictTable :=
  [("keywords:existence", ["keywords:existence"]),
   ("keywords:frequency", ["keywords:frequency"]),
   ("keywords:forbidden_words", ["keywords:forbidden_words"]),
   ("keywords:letter_frequency", ["keywords:letter_frequency"]),
   ("language:response_language",
     ["language:response_language", "detectable_format:multiple_sections",
      "keywords:existence", "keywords:frequency", "keywords:forbidden_words",
      "startend:end_checker", "change_case:english_capital",
      "change_case:english_lowercase"]),
   ("length_constraints:number_sentences", ["length_constraints:number_sentences"]),
   ("length_constraints:number_paragraphs",
     ["length_constraints:number_paragraphs",
      "length_constraints:nth_paragraph_first_word",
      "length_constraints:number_sentences"]),
   ("length_constraints:number_words", ["length_constraints:number_words"]),
   ("length_constraints:nth_paragraph_first_word",
     ["length_constraints:nth_paragraph_first_word",
      "length_constraints:number_paragraphs"]),
   ("detectable_content:number_placeholders",
     ["detectable_content:number_placeholders"]),
   ("detectable_content:postscript", ["detectable_content:postscript"]),
   ("detectable_format:number_bullet_lists",
     ["detectable_format:number_bullet_lists"]),
   ("detectable_format:constrained_response", instructionIds),
   ("detectable_format:number_highlighted_sections",
     ["detectable_format:number_highlighted_sections"]),
   ("detectable_format:multiple_sections",
     ["detectable_format:multiple_sections", "language:response_language",
      "detectable_format:number_highlighted_sections"]),
   ("detectable_format:json_format",
     idSetDiff instructionIds ["keywords:forbidden_words", "keywords:existence"]),
   ("detectable_format:title", ["detectable_format:title"]),
   ("combination:two_responses",
     idSetDiff instructionIds
       ["keywords:forbidden_words", "keywords:existence",
        "language:response_language", "detectable_format:title",
        "punctuation:no_comma"]),
   ("combination:repeat_prompt",
     idSetDiff instructionIds
       ["keywords:existence", "detectable_format:title", "punctuation:no_comma"]),
   ("startend:end_checker", ["startend:end_checker"]),
   ("change_case:capital_word_frequency",
     ["change_case:capital_word_frequency", "change_case:english_lowercase",
      "change_case:english_capital"]),
   ("change_case:english_capital", ["change_case:english_capital"]),
   ("change_case:english_lowercase",
     ["change_case:english_lowercase", "change_case:english_capital"]),
   ("punctuation:no_comma", ["punctuation:no_comma"]),
   ("startend:quotation", ["startend:quotation", "detectable_format:title"])]

/-- The key list of the conflict table. -/
def conflictKeys : List String :=
  rawInstructionConflicts.map Prod.fst

/-- The table `conflict_make` would produce from the initialization table. -/
def symmetrizedConflicts : ConflictTable :=
  conflict_make rawInstructionConflicts

/-! ## Schema (structured-output) scorer
A shallow embedding of `EvaluationStructuredOutput._evaluate`
(src/evaluate_ai/evaluations/structured_output.py, lines 97-102).  The
external `jsonschema.validate` call either succeeds, raises
`ValidationError` (the only exception the method catches), or raises
`SchemaError` (malformed schema — uncaught, so it propagates). -/

/-- Outcome of the external `jsonschema.validate` call. -/
inductive ValidationOutcome where
  | valid
  | invalid (msg : String)
  | schemaError (msg : String)
  deriving DecidableEq

/-- `EvaluationStructuredOutput._evaluate`: `try: validate(...); return
(100, None) except ValidationError as e: return (0, str(e))`.  A
`SchemaError` escapes as `.error`. -/
def structuredOutputEvaluate : ValidationOutcome → Except String (ℚ × Option String)
  | .valid => .ok (100, none)
  | .invalid m => .ok (0, some m)
  | .schemaError m => .error m

/-! ## Multiple-choice (MMLU-Pro) scorer
A shallow embedding of `MMLUProEvaluation._evaluate`
(src/evaluate_ai/evaluations/mmlu_pro.py, lines 139-174) together with
`strip_thinking` (src/evaluate_ai/utils.py).  The three Python regexes are
implemented directly as scanning functions with the same search semantics
(inputs are treated as ASCII text, matching the data the evaluation sees):

* `r"answer is \(?([A-J])\)?"` — leftmost occurrence of `"answer is "`
  followed by an optional `(` and a letter A-J;
* `r".*[aA]nswer:\s*([A-J])"` (no DOTALL, greedy `.*`) — the letter after
  the *last* valid `answer:`/`Answer:` occurrence on the *first* line
  containing one, where valid means the first non-whitespace character
  after the colon (whitespace may span newlines) is in A-J;
* `r"\b[A-J]\b(?!.*\b[A-J]\b)"` with DOTALL — the last isolated letter. -/

/-- Python whitespace (`\s`, `str.strip`) for the ASCII range. -/
def isPyWs (c : Char) : Bool :=
  c == ' ' || c == '\t' || c == '\n' || c == '\r' || c == '\x0b' || c == '\x0c'

/-- Does `pat` occur at the head of `t`? -/
def startsList : List Char → List Char → Bool
  | [], _ => true
  | _ :: _, [] => false
  | p :: ps, c :: cs => p == c && startsList ps cs

/-- A multiple-choice letter, `[A-J]`. -/
def isAJ (c : Char) : Bool :=
  'A' ≤ c && c ≤ 'J'

/-- A regex word character (`\w`, ASCII): letters, digits, underscore. -/
def isWordChar (c : Char) : Bool :=
  c.isAlphanum || c == '_'

/-- Index of the first occurrence of `pat` in the text, if any. -/
def findSubIdx (pat : List Char) : List Char → Option Nat
  | [] => if pat.isEmpty then some 0 else none
  | c :: rest =>
    if startsList pat (c :: rest) then some 0
    else (findSubIdx pat rest).map (· + 1)

/-- The `re.sub(r"<think>.*?</think>", "", response, flags=re.DOTALL)` loop:
remove each non-overlapping leftmost `<think>`…first-`</think>` block and
continue after it.  Fuel-driven (each removal consumes ≥ 15 characters, so
`length` fuel always suffices). -/
def stripThinkLoop : Nat → List Char → List Char
  | 0, cs => cs
  | fuel + 1, cs =>
    match findSubIdx "<think>".toList cs with
    | none => cs
    | some i =>
      let afterOpen := cs.drop (i + 7)
      match findSubIdx "</think>".toList afterOpen with
      | none => cs
      | some j => cs.take i ++ stripThinkLoop fuel (afterOpen.drop (j + 8))

/-- `strip_thinking`: remove think-tag blocks, then `lstrip()` the result
only when a removal happened (`result.lstrip() if result != response else
response`). -/
def stripThinking (cs : List Char) : List Char :=
  let r := stripThinkLoop cs.length cs
  if r == cs then cs else r.dropWhile isPyWs

/-- `response.replace("**", "")`: remove non-overlapping `**` pairs left to
right. -/
def removeStars : List Char → List Char
  | '*' :: '*' :: rest => removeStars rest
  | c :: rest => c :: removeStars rest
  | [] => []

/-- `extract_answer`'s own pattern `r"answer is \(?([A-J])\)?"`: scan left
to right for `"answer is "`; at a hit, an optional `(` then a letter A-J
captures (the trailing `\)?` constrains nothing). -/
def extractAnswerGo : List Char → Option Char
  | [] => none
  | c :: rest =>
    if startsList "answer is ".toList (c :: rest) then
      match (c :: rest).drop 10 with
      | '(' :: d :: _ => if isAJ d then some d else extractAnswerGo rest
      | d :: _ => if isAJ d then some d else extractAnswerGo rest
      | [] => extractAnswerGo rest
    else extractAnswerGo rest

/-- If the text starts with `answer:`/`Answer:`, the remainder after the
colon. -/
def answerColonTail : List Char → Option (List Char)
  | [] => none
  | c :: rest =>
    if (c == 'a' || c == 'A') && startsList "nswer:".toList rest then
      some (rest.drop 6)
    else none

/-- The captured letter of a valid `[aA]nswer:\s*([A-J])` occurrence
starting here, if any. -/
def validAgainAt (t : List Char) : Option Char :=
  match answerColonTail t with
  | some tail =>
    match (tail.dropWhile isPyWs).head? with
    | some ch => if isAJ ch then some ch else none
    | none => none
  | none => none

/-- `extract_again`'s pattern `r".*[aA]nswer:\s*([A-J])"`: the last valid
occurrence on the first line that has one (`found` carries the best match
on the current line; a newline ends the search once a match exists). -/
def extractAgainGo : List Char → Option Char → Option Char
  | [], found => found
  | '\n' :: rest, found =>
    match found with
    | some c => some c
    | none => extractAgainGo rest none
  | c :: rest, found =>
    extractAgainGo rest
      (match validAgainAt (c :: rest) with
       | some ch => some ch
       | none => found)

/-- `extract_final`'s pattern `r"\b[A-J]\b(?!.*\b[A-J]\b)"` with DOTALL:
the last isolated (word-boundary-delimited) letter A-J in the text. -/
def extractFinalGo : Option Char → List Char → Option Char → Option Char
  | _, [], found => found
  | prev, c :: rest, found =>
    let isolated := isAJ c &&
      (match prev with | none => true | some p => !isWordChar p) &&
      (match rest.head? with | none => true | some nx => !isWordChar nx)
    extractFinalGo (some c) rest (if isolated then some c else found)

/-- The nested fallback chain `extract_answer` → `extract_again` →
`extract_final` (each function calls the next on failure). -/
def extractChain (cs : List Char) : Option Char :=
  match extractAnswerGo cs with
  | some c => some c
  | none =>
    match extractAgainGo cs none with
    | some c => some c
    | none => extractFinalGo none cs none

/-- The extraction pipeline of `MMLUProEvaluation._evaluate`:
`strip_thinking`, then `response.replace("**", "")`, then the chain. -/
def mmluExtract (response : String) : Option Char :=
  extractChain (removeStars (stripThinking response.toList))

/-- `MMLUProEvaluation._evaluate`: extract; `None` scores 0, equality with
the expected (single-letter) answer string scores 100, anything else 0. -/
def mmluEvaluate (response expected : String) : ℚ :=
  match mmluExtract response with
  | none => 0
  | some c => if expected.toList == [c] then 100 else 0

/-! ## Instruction-following scorer
A shallow embedding of `IFEvalEvaluation._evaluate`
(src/evaluate_ai/evaluations/instruction_following.py, lines 129-156).
The instantiated checkers are abstracted as boolean predicates on the
response (their construction from the registry and kwargs is external to
the claim); a checker's verdict enters the list as
`response.strip() and instruction.check_following(response)`. -/

/-- Truthiness of `response.strip()`: some non-whitespace character. -/
def hasContent (r : List Char) : Bool :=
  r.any (fun c => !isPyWs c)

/-- `IFEvalEvaluation._evaluate`: build `is_following_list`, then
`score = (sum(is_following_list) / len(is_following_list)) * 100`.  An
empty checker list divides by zero (`.error`). -/
def ifevalEvaluate (response : List Char) (checkers : List (List Char → Bool)) :
    Except Unit ℚ :=
  let isFollowingList := checkers.map (fun chk => hasContent response && chk response)
  if isFollowingList.isEmpty then .error ()
  else .ok (((isFollowingList.count true : ℚ) / (isFollowingList.length : ℚ)) * 100)

/-! ## Pattern (contains-pattern) scorer
A shallow embedding of `EvaluationContainsPattern._evaluate`
(src/evaluate_ai/evaluations/contains_pattern.py, lines 113-117):
`re.compile(pattern)` then `bool(pattern.search(response))`, scored
100/0.  A small regex engine covers the fragment of Python `re` the
instances use: literal characters, `\d`, `.`, the `+` quantifier and the
`^`/`$` anchors (patterns outside the fragment compile to `none`;
brace-count quantifiers are also outside the fragment). -/

/-- A regex atom. -/
inductive RAtom where
  | lit (c : Char)
  | digitClass
  | anyChar
  deriving DecidableEq

/-- A quantifier: exactly once, or `+` (one or more). -/
inductive RQuant where
  | one
  | plus
  deriving DecidableEq

/-- A quantified atom. -/
structure RItem where
  atom : RAtom
  quant : RQuant
  deriving DecidableEq

/-- A compiled pattern: optional `^` anchor, items, optional `$` anchor. -/
structure RPattern where
  bos : Bool
  items : List RItem
  eos : Bool
  deriving DecidableEq

/-- Does the atom match one character? (`.` matches anything but newline.) -/
def atomMatch : RAtom → Char → Bool
  | .lit c, d => c == d
  | .digitClass, d => d.isDigit
  | .anyChar, d => d != '\n'

/-- Python `$`: end of string, or just before a trailing newline. -/
def dollarOk (eos : Bool) (s : List Char) : Bool :=
  !eos || s.isEmpty || s == ['\n']

/-- Match the item list against a suffix (fuel-driven backtracking; every
step shortens the items or the text, so `items.length + s.length + 1` fuel
is exhaustive). -/
def matchFrom : Nat → List RItem → List Char → Bool → Bool
  | 0, _, _, _ => false
  | _ + 1, [], s, eos => dollarOk eos s
  | fuel + 1, it :: rest, s, eos =>
    match s with
    | [] => false
    | c :: t =>
      if atomMatch it.atom c then
        match it.quant with
        | .one => matchFrom fuel rest t eos
        | .plus => matchFrom fuel rest t eos || matchFrom fuel (it :: rest) t eos
      else false

/-- All suffixes of the text, in order (the candidate match starts). -/
def listTails : List Char → List (List Char)
  | [] => [[]]
  | c :: t => (c :: t) :: listTails t

/-- `pattern.search(response)`: does the pattern match starting at any
position (only position 0 when anchored with `^`)? -/
def searchRE (p : RPattern) (s : List Char) : Bool :=
  let starts := if p.bos then [s] else listTails s
  starts.any (fun t => matchFrom (p.items.length + t.length + 1) p.items t p.eos)

/-- Characters with special meaning in the modeled regex fragment. -/
def specialChars : List Char :=
  ['+', '*', '?', '^', '$', '\\', '.', '[', ']', '(', ')', '|']

/-- Compile the pattern body (after anchors are stripped). -/
def compileItems : List Char → Option (List RItem)
  | [] => some []
  | '\\' :: 'd' :: '+' :: rest =>
    (compileItems rest).map (fun l => ⟨.digitClass, .plus⟩ :: l)
  | '\\' :: 'd' :: rest =>
    (compileItems rest).map (fun l => ⟨.digitClass, .one⟩ :: l)
  | '\\' :: _ => none
  | '.' :: '+' :: rest =>
    (compileItems rest).map (fun l => ⟨.anyChar, .plus⟩ :: l)
  | '.' :: rest =>
    (compileItems rest).map (fun l => ⟨.anyChar, .one⟩ :: l)
  | c :: '+' :: rest =>
    if specialChars.contains c then none
    else (compileItems rest).map (fun l => ⟨.lit c, .plus⟩ :: l)
  | c :: rest =>
    if specialChars.contains c then none
    else (compileItems rest).map (fun l => ⟨.lit c, .one⟩ :: l)

/-- `re.compile` over the modeled fragment: strip a leading `^` and a
trailing `$`, compile the rest. -/
def compileRegex (p : String) : Option RPattern :=
  let cs := p.toList
  let startStripped : Bool × List Char :=
    match cs with
    | '^' :: t => (true, t)
    | _ => (false, cs)
  let endStripped : Bool × List Char :=
    match startStripped.2.reverse with
    | '$' :: t => (true, t.reverse)
    | _ => (false, startStripped.2)
  (compileItems endStripped.2).map (fun items => ⟨startStripped.1, items, endStripped.1⟩)

/-- `EvaluationContainsPattern._evaluate`: compile the instance's pattern,
search the response, score 100 on a match and 0 otherwise.  (`none` means
the pattern is outside the modeled regex fragment.) -/
def containsPatternEvaluate (pattern response : String) : Option ℚ :=
  (compileRegex pattern).map (fun p => if searchRE p response.toList then (100 : ℚ) else 0)

/-! ## Helper lemmas -/

theorem partialTrueSum_nil (total : Int) : partialTrueSum total [] = 0 := rfl

theorem partialTrueSum_cons (total : Int) (c : Criterion) (l : List Criterion) :
    partialTrueSum total (c :: l)
      = (if c.2.isTrueAnswer then normalizedWeight total c.1 else 0) + partialTrueSum total l := by
  simp [partialTrueSum]

/-- Characterization of the per-criterion loop when it returns normally:
the list was empty or the total was nonzero, and the result adds to the
accumulator exactly the normalized weights of the criteria judged true. -/
theorem mcLoop_ok_spec (total : Int) :
    ∀ (l : List Criterion) (s q : ℚ), mcLoop total s l = .ok q →
      (l = [] ∨ total ≠ 0) ∧ q = s + partialTrueSum total l := by
  intro l
  induction l with
  | nil =>
    intro s q h
    simp only [mcLoop, Except.ok.injEq] at h
    simp [partialTrueSum, h]
  | cons c rest ih =>
    intro s q h
    by_cases ht : total = 0
    · simp [mcLoop, ht] at h
    · refine ⟨Or.inr ht, ?_⟩
      rcases c with ⟨imp, out⟩
      cases out with
      | reasoningTransportError => simp [mcLoop, ht] at h
      | convertTransportError => simp [mcLoop, ht] at h
      | parseFailure =>
        simp only [mcLoop, if_neg ht] at h
        have h2 := (ih s q h).2
        rw [partialTrueSum_cons, h2]
        simp [JudgeOutcome.isTrueAnswer]
      | answer b =>
        simp only [mcLoop, if_neg ht] at h
        have h2 := (ih _ q h).2
        rw [partialTrueSum_cons, h2]
        cases b with
        | true =>
          simp only [JudgeOutcome.isTrueAnswer, if_pos, if_true]
          ring
        | false => simp [JudgeOutcome.isTrueAnswer]

/-- A transport error anywhere in the criteria list makes the whole loop
raise (the judge `chat_completion` calls are outside the `try`). -/
theorem mcLoop_transport (total : Int) (out : JudgeOutcome)
    (hout : out.isTransport = true) :
    ∀ (l1 : List Criterion) (s : ℚ) (l2 : List Criterion) (imp : Int),
      mcLoop total s (l1 ++ (imp, out) :: l2) = .error () := by
  intro l1
  induction l1 with
  | nil =>
    intro s l2 imp
    by_cases ht : total = 0
    · simp [mcLoop, ht]
    · cases out with
      | reasoningTransportError => simp [mcLoop, ht]
      | convertTransportError => simp [mcLoop, ht]
      | parseFailure => simp [JudgeOutcome.isTransport] at hout
      | answer b => simp [JudgeOutcome.isTransport] at hout
  | cons c t ih =>
    intro s l2 imp
    by_cases ht : total = 0
    · simp [mcLoop, ht]
    · rcases c with ⟨i, o⟩
      cases o <;> simp [mcLoop, ht, ih]

/-- A caught extraction failure behaves exactly like a `false` answer:
score contribution 0 and the loop continues. -/
theorem mcLoop_parseFailure_eq_false (total : Int) :
    ∀ (l1 : List Criterion) (s : ℚ) (l2 : List Criterion) (imp : Int),
      mcLoop total s (l1 ++ (imp, .parseFailure) :: l2)
        = mcLoop total s (l1 ++ (imp, .answer false) :: l2) := by
  intro l1
  induction l1 with
  | nil =>
    intro s l2 imp
    by_cases ht : total = 0 <;> simp [mcLoop, ht]
  | cons c t ih =>
    intro s l2 imp
    by_cases ht : total = 0
    · simp [mcLoop, ht]
    · rcases c with ⟨i, o⟩
      cases o <;> simp [mcLoop, ht, ih]

theorem sum_map_div_mul (l : List Int) (T : ℚ) :
    (l.map (fun (i : Int) => ((i : ℚ) / T) * 100)).sum = ((l.sum : Int) : ℚ) / T * 100 := by
  induction l with
  | nil => simp
  | cons a t ih =>
    simp only [List.map_cons, List.sum_cons, List.sum_cons, ih]
    push_cast
    ring

/-- The normalized weights of an instance's criteria sum to exactly 100
whenever the total importance is nonzero. -/
theorem normWeights_sum (crits : List Criterion) (h : totalImportance crits ≠ 0) :
    (crits.map (fun c => normalizedWeight (totalImportance crits) c.1)).sum = 100 := by
  have hrw : crits.map (fun c => normalizedWeight (totalImportance crits) c.1)
      = (crits.map Prod.fst).map
          (fun (i : Int) => ((i : ℚ) / ((totalImportance crits : Int) : ℚ)) * 100) := by
    simp [List.map_map, normalizedWeight, Function.comp]
  rw [hrw, sum_map_div_mul]
  have hT : ((crits.map Prod.fst).sum : Int) = totalImportance crits := rfl
  rw [hT, div_self (by exact_mod_cast h), one_mul]

/-! ## Claim theorems -/

/-- C3, counterexample: the rubric score is *not* rounded to two decimal
places — three equally weighted criteria with two judged true score exactly
200/3, which is not a two-decimal value — and with a negative importance
(unconstrained in the code) the returned score exceeds 100, so the
"always lies in [0, 100]" part is also unconditional-false. -/
theorem meets_criteria_rounding_counterexample :
    meetsCriteriaEvaluate
        [(1, .answer true), (1, .answer true), (1, .answer false)] = .ok (200 / 3)
    ∧ round2 (200 / 3) ≠ (200 / 3 : ℚ)
    ∧ meetsCriteriaEvaluate [(2, .answer true), (-1, .answer false)] = .ok 200
    ∧ ¬((200 : ℚ) ≤ 100) := by
  refine ⟨?_, ?_, ?_, ?_⟩
  · norm_num [meetsCriteriaEvaluate, mcLoop, totalImportance, normalizedWeight]
  · norm_num [round2]
  · norm_num [meetsCriteriaEvaluate, mcLoop, totalImportance, normalizedWeight]
  · norm_num

/-- C3 (amended): the rubric score equals the *exact* (unrounded) sum of
the normalized weights of the criteria judged true, and it lies in
[0, 100] provided every importance is nonnegative. -/
theorem meets_criteria_score_exact_sum (crits : List Criterion) (q : ℚ)
    (h : meetsCriteriaEvaluate crits = .ok q) :
    q = trueWeightSum crits ∧ ((∀ c ∈ crits, 0 ≤ c.1) → 0 ≤ q ∧ q ≤ 100) := by
  have hspec := mcLoop_ok_spec (totalImportance crits) crits 0 q h
  have hq : q = trueWeightSum crits := by
    have h2 := hspec.2
    rwa [zero_add] at h2
  refine ⟨hq, ?_⟩
  intro hnn
  rcases hspec.1 with hemp | ht
  · subst hemp
    simp only [trueWeightSum, partialTrueSum, List.map_nil, List.sum_nil] at hq
    simp [hq]
  · have hT0 : 0 ≤ totalImportance crits := by
      apply List.sum_nonneg
      intro x hx
      rcases List.mem_map.1 hx with ⟨c, hc, rfl⟩
      exact hnn c hc
    have hTpos : 0 < totalImportance crits := lt_of_le_of_ne hT0 (Ne.symm ht)
    have hTQ : (0 : ℚ) < ((totalImportance crits : Int) : ℚ) := by exact_mod_cast hTpos
    have hterm : ∀ c ∈ crits,
        (0 : ℚ) ≤ normalizedWeight (totalImportance crits) c.1 := by
      intro c hc
      exact mul_nonneg (div_nonneg (by exact_mod_cast hnn c hc) hTQ.le) (by norm_num)
    constructor
    · rw [hq]
      apply List.sum_nonneg
      intro x hx
      rcases List.mem_map.1 hx with ⟨c, hc, rfl⟩
      split
      · exact hterm c hc
      · exact le_refl 0
    · rw [hq]
      have hle : trueWeightSum crits
          ≤ (crits.map (fun c => normalizedWeight (totalImportance crits) c.1)).sum := by
        apply List.sum_le_sum
        intro c hc
        split
        · exact le_refl _
        · exact hterm c hc
      calc trueWeightSum crits
          ≤ (crits.map (fun c => normalizedWeight (totalImportance crits) c.1)).sum := hle
        _ = 100 := normWeights_sum crits ht

/-- C3, witness: at criteria `[(1, true), (1, false)]` the score is 50,
which equals the true-weight sum and lies in [0, 100]. -/
theorem meets_criteria_score_witness :
    (0 : ℚ) ≤ 50 ∧ (50 : ℚ) ≤ 100
    ∧ (50 : ℚ) = trueWeightSum [((1 : Int), JudgeOutcome.answer true),
        ((1 : Int), JudgeOutcome.answer false)] := by
  have H := meets_criteria_score_exact_sum
    [((1 : Int), JudgeOutcome.answer true), ((1 : Int), JudgeOutcome.answer false)]
    50 (by norm_num [meetsCriteriaEvaluate, mcLoop, totalImportance, normalizedWeight])
  exact ⟨(H.2 (by decide)).1, (H.2 (by decide)).2, H.1⟩

/-- C4, counterexample: a transport error raised by a judge call does
*not* let the loop continue — it aborts the whole instance — whereas a
caught extraction (parse) failure does continue. -/
theorem transport_error_aborts_counterexample :
    meetsCriteriaEvaluate
        [(1, .answer true), (1, .reasoningTransportError), (1, .answer true)] = .error ()
    ∧ meetsCriteriaEvaluate
        [(1, .answer true), (1, .parseFailure), (1, .answer true)] = .ok (200 / 3) := by
  constructor
  · rfl
  · norm_num [meetsCriteriaEvaluate, mcLoop, totalImportance, normalizedWeight]

/-- C4 (amended): a criterion whose extraction step raises inside the
`try` (malformed JSON / missing "answer" key) contributes 0 and the loop
continues (it is indistinguishable from a `false` judgment), but a
transport error from either judge call propagates and aborts the whole
instance evaluation. -/
theorem criterion_failure_handling :
    (∀ (l1 l2 : List Criterion) (imp : Int),
      meetsCriteriaEvaluate (l1 ++ (imp, .parseFailure) :: l2)
        = meetsCriteriaEvaluate (l1 ++ (imp, .answer false) :: l2))
    ∧ (∀ (l1 l2 : List Criterion) (imp : Int),
      meetsCriteriaEvaluate (l1 ++ (imp, .reasoningTransportError) :: l2) = .error ())
    ∧ (∀ (l1 l2 : List Criterion) (imp : Int),
      meetsCriteriaEvaluate (l1 ++ (imp, .convertTransportError) :: l2) = .error ()) := by
  refine ⟨?_, ?_, ?_⟩
  · intro l1 l2 imp
    have htot : totalImportance (l1 ++ (imp, JudgeOutcome.parseFailure) :: l2)
        = totalImportance (l1 ++ (imp, JudgeOutcome.answer false) :: l2) := by
      simp [totalImportance]
    unfold meetsCriteriaEvaluate
    rw [htot]
    exact mcLoop_parseFailure_eq_false _ l1 0 l2 imp
  · intro l1 l2 imp
    exact mcLoop_transport _ JudgeOutcome.reasoningTransportError rfl l1 0 l2 imp
  · intro l1 l2 imp
    exact mcLoop_transport _ JudgeOutcome.convertTransportError rfl l1 0 l2 imp

/-- C5, counterexample: a scorer *can* raise out of its score computation:
the rubric scorer's weight normalization divides by the summed importance,
so criteria `[(1, true), (-1, true)]` (total importance 0) raise
`ZeroDivisionError` instead of returning a score. -/
theorem scorer_raises_counterexample :
    meetsCriteriaEvaluate [(1, .answer true), (-1, .answer true)] = .error () := by
  rfl

/-- C5 (amended): only specific failures are downgraded: the schema scorer
catches `ValidationError` and returns score 0 plus the diagnostic, returns
(100, none) on success, and propagates `SchemaError` (and the rubric
scorer propagates zero-total and judge transport errors, see the
counterexample). -/
theorem structured_output_catch_behavior :
    structuredOutputEvaluate .valid = .ok (100, none)
    ∧ (∀ m, structuredOutputEvaluate (.invalid m) = .ok (0, some m))
    ∧ (∀ m, structuredOutputEvaluate (.schemaError m) = .error m) :=
  ⟨rfl, fun _ => rfl, fun _ => rfl⟩

/-- C7: the per-instance normalized criterion weights (each importance
divided by the instance's own total, times 100) sum to exactly 100
whenever the total importance is nonzero, regardless of scale. -/
theorem normalized_weights_sum_to_100 (crits : List Criterion)
    (h : totalImportance crits ≠ 0) :
    (crits.map (fun c => normalizedWeight (totalImportance crits) c.1)).sum = 100 :=
  normWeights_sum crits h

/-- C7, witness: importances `[1, 3]` normalize to weights summing to 100. -/
theorem normalized_weights_sum_witness :
    totalImportance [((1 : Int), JudgeOutcome.answer true),
        ((3 : Int), JudgeOutcome.answer false)] ≠ 0
    ∧ ([((1 : Int), JudgeOutcome.answer true), ((3 : Int), JudgeOutcome.answer false)].map
        (fun c => normalizedWeight
          (totalImportance [((1 : Int), JudgeOutcome.answer true),
            ((3 : Int), JudgeOutcome.answer false)]) c.1)).sum = 100 :=
  ⟨by decide, normalized_weights_sum_to_100 _ (by decide)⟩

/-- C10, counterexample: an *empty* criteria list does not raise — the
per-criterion loop never runs, so no division happens and the score 0 is
returned. -/
theorem empty_criteria_counterexample :
    meetsCriteriaEvaluate [] = .ok 0 := rfl

/-- C10 (amended): the rubric evaluation raises `ZeroDivisionError` exactly
when the criteria list is nonempty and the importances sum to zero; an
empty criteria list returns score 0 without raising. -/
theorem zero_total_importance_raises :
    (∀ (c : Criterion) (l : List Criterion), totalImportance (c :: l) = 0 →
      meetsCriteriaEvaluate (c :: l) = .error ())
    ∧ meetsCriteriaEvaluate [] = .ok 0 := by
  constructor
  · intro c l h
    simp [meetsCriteriaEvaluate, h, mcLoop]
  · rfl

/-- C10, witness: a single criterion of importance 0 raises. -/
theorem zero_total_importance_witness :
    totalImportance [((0 : Int), JudgeOutcome.answer true)] = 0
    ∧ meetsCriteriaEvaluate [((0 : Int), JudgeOutcome.answer true)] = .error () :=
  ⟨by decide, zero_total_importance_raises.1 _ [] (by decide)⟩

/-- C1: the completed-keys set contains exactly the keys of instance-level
records; `num_instances` and `execute` process exactly the candidate keys
not in the skip set (the pending set is `C \ S` and has the counted
length), and when the skip set covers every candidate key nothing is
pending. -/
theorem skip_set_filtering_exact (docs : List StoredRecord) (k : EvalKey)
    (cls : String) (models : List (String × String)) (instanceNames : List String)
    (keysToSkip : Finset EvalKey) :
    (k ∈ get_executed_evaluations docs
      ↔ ∃ d ∈ docs, d.output_type = "instance" ∧ recordKey d = k)
    ∧ (k ∈ executedKeys cls models instanceNames keysToSkip
      ↔ k ∈ candidateKeys cls models instanceNames ∧ k ∉ keysToSkip)
    ∧ (executedKeys cls models instanceNames keysToSkip).toFinset
      = (candidateKeys cls models instanceNames).toFinset \ keysToSkip
    ∧ num_instances cls models instanceNames keysToSkip
      = (executedKeys cls models instanceNames keysToSkip).length
    ∧ ((∀ k' ∈ candidateKeys cls models instanceNames, k' ∈ keysToSkip)
      → num_instances cls models instanceNames keysToSkip = 0) := by
  refine ⟨?_, ?_, ?_, ?_, ?_⟩
  · simp only [get_executed_evaluations, List.mem_toFinset, List.mem_map,
      List.mem_filter, beq_iff_eq]
    constructor
    · rintro ⟨d, ⟨hd, hty⟩, hk⟩
      exact ⟨d, hd, hty, hk⟩
    · rintro ⟨d, hd, hty, hk⟩
      exact ⟨d, ⟨hd, hty⟩, hk⟩
  · simp [executedKeys, List.mem_filter]
  · ext k'
    simp [executedKeys, List.mem_toFinset, List.mem_filter, Finset.mem_sdiff]
  · simp [num_instances, executedKeys, List.countP_eq_length_filter]
  · intro h
    simp only [num_instances, List.countP_eq_zero, Bool.not_eq_true', decide_eq_false_iff_not,
      Decidable.not_not]
    exact h

/-- C1, witness: with one (provider, model) pair, one instance, and a skip
set already containing the single candidate key, zero items are pending. -/
theorem skip_set_filtering_witness :
    num_instances "EvaluationInstanceOutputContainsPattern" [("ollama", "m1")] ["i1"]
      {("EvaluationInstanceOutputContainsPattern", "m1", "ollama", "i1")} = 0 :=
  (skip_set_filtering_exact [] ("EvaluationInstanceOutputContainsPattern", "m1", "ollama", "i1")
    "EvaluationInstanceOutputContainsPattern" [("ollama", "m1")] ["i1"]
    {("EvaluationInstanceOutputContainsPattern", "m1", "ollama", "i1")}).2.2.2.2 (by decide)

set_option maxRecDepth 1000000

/-- C2, counterexample: the repository never calls `conflict_make`, so the
conflict table in effect after registry initialization is the raw
one-directional `INSTRUCTION_CONFLICTS`, and it is not symmetric:
`language:response_language` lists `keywords:existence` as a conflict, but
not vice versa.  (Had the symmetrization run at initialization as claimed,
the initialized table would satisfy B ∈ conflicts(A) ⇔ A ∈ conflicts(B).) -/
theorem conflict_table_not_symmetrized_at_init :
    "keywords:existence" ∈ tableGet rawInstructionConflicts "language:response_language"
    ∧ "language:response_language" ∉ tableGet rawInstructionConflicts "keywords:existence" := by
  decide

/-- C2 (amended): `conflict_make` applied to the one-directional table
*would* yield a table that is symmetric over the instruction identifiers,
contains every identifier in its own conflict set, and is a fixed point of
`conflict_make` (idempotence) — but the repository defines `conflict_make`
without ever invoking it, so this symmetrization does not run at registry
initialization. -/
theorem conflict_make_symmetric_reflexive_idempotent :
    (∀ a ∈ conflictKeys, ∀ b ∈ conflictKeys,
      (b ∈ tableGet symmetrizedConflicts a ↔ a ∈ tableGet symmetrizedConflicts b))
    ∧ (∀ a ∈ conflictKeys, a ∈ tableGet symmetrizedConflicts a)
    ∧ conflict_make symmetrizedConflicts = symmetrizedConflicts := by
  refine ⟨?_, ?_, ?_⟩ <;> decide

/-- C2, witness: symmetry instantiated at the identifier pair of the
counterexample — in the symmetrized table the conflict between
`language:response_language` and `keywords:existence` goes both ways. -/
theorem conflict_make_symmetry_witness :
    "keywords:existence" ∈ tableGet symmetrizedConflicts "language:response_language"
    ↔ "language:response_language" ∈ tableGet symmetrizedConflicts "keywords:existence" :=
  conflict_make_symmetric_reflexive_idempotent.1
    "language:response_language" (by decide) "keywords:existence" (by decide)

/-- C6: multiple-choice extraction precedence — the three patterns are
tried in fixed order with the first success winning, the four spec inputs
extract/score as claimed, a missing extraction scores 0 without raising,
and an extracted letter scores 100 exactly when it equals the expected
answer. -/
theorem multiple_choice_extraction_precedence :
    mmluEvaluate "The answer is (C)." "C" = 100
    ∧ mmluEvaluate "Answer: B" "B" = 100
    ∧ mmluEvaluate "... so the choice is D" "D" = 100
    ∧ mmluEvaluate "no idea" "A" = 0
    ∧ mmluExtract "The answer is (C)." = some 'C'
    ∧ extractAnswerGo "Answer: B".toList = none
    ∧ extractAgainGo "Answer: B".toList none = some 'B'
    ∧ extractAnswerGo "... so the choice is D".toList = none
    ∧ extractAgainGo "... so the choice is D".toList none = none
    ∧ extractFinalGo none "... so the choice is D".toList none = some 'D'
    ∧ mmluExtract "no idea" = none
    ∧ (∀ cs c, extractAnswerGo cs = some c → extractChain cs = some c)
    ∧ (∀ cs c, extractAnswerGo cs = none → extractAgainGo cs none = some c →
        extractChain cs = some c)
    ∧ (∀ cs, extractAnswerGo cs = none → extractAgainGo cs none = none →
        extractChain cs = extractFinalGo none cs none)
    ∧ (∀ r e, mmluExtract r = none → mmluEvaluate r e = 0)
    ∧ (∀ r e c, mmluExtract r = some c →
        mmluEvaluate r e = if e.toList == [c] then 100 else 0) := by
  refine ⟨rfl, rfl, rfl, rfl, rfl, rfl, rfl, rfl, rfl, rfl, rfl, ?_, ?_, ?_, ?_, ?_⟩
  · intro cs c h
    simp [extractChain, h]
  · intro cs c h1 h2
    simp [extractChain, h1, h2]
  · intro cs h1 h2
    simp [extractChain, h1, h2]
  · intro r e h
    simp [mmluEvaluate, h]
  · intro r e c h
    simp [mmluEvaluate, h]

/-- C6, witness: the first-pattern rule applied at the concrete input
"The answer is (C)." -/
theorem multiple_choice_precedence_witness :
    extractChain "The answer is (C).".toList = some 'C' :=
  multiple_choice_extraction_precedence.2.2.2.2.2.2.2.2.2.2.2.1
    "The answer is (C).".toList 'C' rfl

theorem count_true_map {α : Type} (f : α → Bool) (l : List α) :
    (l.map f).count true = l.countP f := by
  induction l with
  | nil => rfl
  | cons a t ih =>
    simp only [List.map_cons, List.count_cons, List.countP_cons, ih]
    cases h : f a <;> simp

/-- C8: a checker's verdict is `response nonempty after strip AND the
checker's predicate`, the score is (passing / total) × 100, and a
whitespace-only response scores 0 (given a nonempty instruction list). -/
theorem ifeval_score_formula (checkers : List (List Char → Bool)) (r : List Char)
    (h : checkers ≠ []) :
    ifevalEvaluate r checkers
      = .ok (((checkers.countP (fun chk => hasContent r && chk r) : ℚ)
          / (checkers.length : ℚ)) * 100)
    ∧ (hasContent r = false → ifevalEvaluate r checkers = .ok 0) := by
  have hne : (checkers.map (fun chk => hasContent r && chk r)).isEmpty = false := by
    cases checkers with
    | nil => exact absurd rfl h
    | cons a t => rfl
  have hmain : ifevalEvaluate r checkers
      = .ok (((checkers.countP (fun chk => hasContent r && chk r) : ℚ)
          / (checkers.length : ℚ)) * 100) := by
    unfold ifevalEvaluate
    rw [if_neg (by rw [hne]; exact Bool.false_ne_true)]
    rw [count_true_map, List.length_map]
  refine ⟨hmain, fun hfalse => ?_⟩
  rw [hmain]
  have hzero : checkers.countP (fun chk => hasContent r && chk r) = 0 := by
    rw [List.countP_eq_zero]
    intro a _
    simp [hfalse]
  rw [hzero]
  norm_num

/-- C8, witness: a whitespace-only response fails the (single) checker and
scores 0. -/
theorem ifeval_score_witness :
    ifevalEvaluate " \n".toList [fun _ => true] = .ok 0 :=
  (ifeval_score_formula [fun _ => true] " \n".toList (by simp)).2 (by decide)

/-- C9: the pattern scorer scores 100 exactly on a regex match anywhere in
the response and 0 otherwise — never an intermediate value; concretely,
`\d+` matches inside "The result is 42" (score 100) while the anchored
`^\d+$` does not (score 0). -/
theorem pattern_scorer_binary :
    containsPatternEvaluate "\\d+" "The result is 42" = some 100
    ∧ containsPatternEvaluate "^\\d+$" "The result is 42" = some 0
    ∧ (∀ pat resp, containsPatternEvaluate pat resp = none
        ∨ containsPatternEvaluate pat resp = some 0
        ∨ containsPatternEvaluate pat resp = some 100) := by
  refine ⟨rfl, rfl, ?_⟩
  intro pat resp
  cases h : compileRegex pat with
  | none =>
    left
    simp [containsPatternEvaluate, h]
  | some p =>
    cases hs : searchRE p resp.toList with
    | true =>
      right; right
      simp only [String.toList] at hs
      simp [containsPatternEvaluate, h, hs]
    | false =>
      right; left
      simp only [String.toList] at hs
      simp [containsPatternEvaluate, h, hs]

end EvaluateAI
